import Mathlib

/-!
Verification development for the `ai_researcher_agent` repository
(`src/ai_researcher_agent/run.py` and `src/ai_researcher_agent/schemas.py`).

The repository wires a sequential three-stage research pipeline: a run
orchestrator validates an incoming request record against pydantic schemas,
constructs tool clients and three agent roles, builds three chained tasks
with timestamped artifact paths, hands them to an external executor, and
shapes the executor's output into a three-field result mapping.

The development below is a shallow embedding of that code.  Python values
that flow through the orchestrator are modelled by the inductive `PyVal`;
pydantic validation of `ResearchTopic` / `InputSchema` is modelled by
explicit `Except`-valued validators; the task builder, the agent
constructor, and the entry point `run` are modelled as pure functions,
with the external clock and the external executor result passed in as
parameters, and the observable side effects of a run (tool construction,
agent construction, validation, stage execution) recorded as an event
trace.
-/

namespace AIResearcher

/-- A Python value as it appears in the orchestrator's data flow:
`None`, booleans, integers, strings and string-keyed dictionaries. -/
inductive PyVal where
  | pyNone
  | pyBool (b : Bool)
  | pyInt (n : Int)
  | pyStr (s : String)
  | pyDict (entries : List (String × PyVal))

/-- The empty Python dictionary. -/
def emptyDict : PyVal := PyVal.pyDict []

/-- `true` exactly on dictionary values. -/
def isDictVal : PyVal → Bool
  | .pyDict _ => true
  | _ => false

/-- First binding of a key in an association list, as Python dictionary
lookup (dictionaries are modelled by their association lists). -/
def lookup (d : List (String × PyVal)) (key : String) : Option PyVal :=
  (d.find? (fun p => p.1 == key)).map Prod.snd

/-- `d.get(key, default)` for a dictionary `d`, with the default
substituted for a missing key. -/
def getD (d : List (String × PyVal)) (key : String) : PyVal :=
  (lookup d key).getD emptyDict

/-- Python attribute access `v.get(key, default)`: succeeds on
dictionaries and raises (`AttributeError`) on every other value. -/
def pyGet (v : PyVal) (key : String) (default : PyVal) : Except String PyVal :=
  match v with
  | .pyDict d => Except.ok ((lookup d key).getD default)
  | _ => Except.error "AttributeError: object has no attribute get"

/-- `ResearchTopic` from `schemas.py`: required `topic`, optional
`context`, `depth` (default `"comprehensive"`), `research_objective` and
`specific_focus`. -/
structure ResearchTopic where
  topic : String
  context : Option String
  depth : Option String
  research_objective : Option String
  specific_focus : Option String

/-- `InputSchema` from `schemas.py`: a `ResearchTopic` plus
`max_sources : Optional[int] = 5` and
`include_citations : Optional[bool] = True`. -/
structure InputSchema where
  research_topic : ResearchTopic
  max_sources : Option Int
  include_citations : Option Bool

/-- Pydantic validation of the required `topic : str` field: a present
string is accepted (the empty string included, since the field carries no
length constraint); a present non-string and a missing field are
rejected. -/
def vTopic : Option PyVal → Except String String
  | some (.pyStr s) => Except.ok s
  | some _ => Except.error "topic: str type expected"
  | Option.none => Except.error "topic: field required"

/-- Pydantic validation of an `Optional[str]` field with the given
default: a missing field yields the default, an explicit `None` yields
`none`, a string yields itself, anything else is rejected. -/
def vOptStr (default : Option String) : Option PyVal → Except String (Option String)
  | Option.none => Except.ok default
  | some .pyNone => Except.ok Option.none
  | some (.pyStr s) => Except.ok (some s)
  | some _ => Except.error "str type expected"

/-- Pydantic validation of `max_sources : Optional[int] = 5`: a missing
field defaults to `5`; `None` and any integer — zero and negative
integers included, the field carries no positivity constraint — are
accepted; integer-parsable strings are coerced; everything else is
rejected. -/
def validateMaxSources : Option PyVal → Except String (Option Int)
  | Option.none => Except.ok (some 5)
  | some .pyNone => Except.ok Option.none
  | some (.pyInt n) => Except.ok (some n)
  | some (.pyStr s) =>
      match s.toInt? with
      | some n => Except.ok (some n)
      | Option.none => Except.error "max_sources: int parsing failed"
  | some _ => Except.error "max_sources: int type expected"

/-- Pydantic validation of `include_citations : Optional[bool] = True`:
a missing field defaults to `true`; `None` and booleans are accepted;
everything else is rejected. -/
def validateIncludeCitations : Option PyVal → Except String (Option Bool)
  | Option.none => Except.ok (some true)
  | some .pyNone => Except.ok Option.none
  | some (.pyBool b) => Except.ok (some b)
  | some _ => Except.error "include_citations: bool type expected"

/-- Pydantic validation of a `ResearchTopic` record.  Unknown extra keys
are ignored. -/
def validateResearchTopic : PyVal → Except String ResearchTopic
  | .pyDict d =>
      Except.bind (vTopic (lookup d "topic")) fun topic =>
      Except.bind (vOptStr Option.none (lookup d "context")) fun ctx =>
      Except.bind (vOptStr (some "comprehensive") (lookup d "depth")) fun depth =>
      Except.bind (vOptStr Option.none (lookup d "research_objective")) fun ro =>
      Except.bind (vOptStr Option.none (lookup d "specific_focus")) fun sf =>
      Except.ok ⟨topic, ctx, depth, ro, sf⟩
  | _ => Except.error "research_topic: dict expected"

/-- The nested `research_topic` field of `InputSchema` is required. -/
def vResearchTopicField : Option PyVal → Except String ResearchTopic
  | some v => validateResearchTopic v
  | Option.none => Except.error "research_topic: field required"

/-- Pydantic validation of an `InputSchema` record
(`InputSchema(**module_run.inputs)`).  Unknown extra keys are ignored. -/
def validateInputSchema (d : List (String × PyVal)) : Except String InputSchema :=
  Except.bind (vResearchTopicField (lookup d "research_topic")) fun rt =>
  Except.bind (validateMaxSources (lookup d "max_sources")) fun ms =>
  Except.bind (validateIncludeCitations (lookup d "include_citations")) fun ic =>
  Except.ok ⟨rt, ms, ic⟩

/-- The language-model configuration carried by the deployment
descriptor (`module_run.agent_deployment.agent_config.llm_config`).
The temperature is an exact rational (the code only ever stores the
literal `0.7`, never computes with it). -/
structure LLMConfig where
  model : String
  temperature : ℚ

/-- `agent_config` of a deployment descriptor. -/
structure AgentConfig where
  llm_config : LLMConfig

/-- A deployment descriptor (`module_run.agent_deployment`). -/
structure AgentDeployment where
  agent_config : AgentConfig

/-- The configuration of a `ChatOpenAI` language-model client. -/
structure ChatOpenAIConfig where
  model_name : String
  temperature : ℚ

/-- A crew agent as constructed in `setup_agents`: role, goal,
backstory, permitted tools, language-model client configuration and the
verbose flag. -/
structure AgentDef where
  role : String
  goal : String
  backstory : String
  tools : List String
  llm : ChatOpenAIConfig
  verbose : Bool

/-- `setup_tools`: the three tool clients constructed for a run. -/
def setup_tools : List String := ["SerperDevTool", "FileReadTool", "FileWriteTool"]

/-- `setup_agents`: constructs the three agents.  The stored deployment
`llm_config` is in scope (it is the argument) but the code builds one
`ChatOpenAI(model_name="gpt-4o", temperature=0.7)` client and shares it
across the three agents. -/
def setup_agents (llm_config : LLMConfig) : AgentDef × AgentDef × AgentDef :=
  let llm : ChatOpenAIConfig := { model_name := "gpt-4o", temperature := 7/10 }
  ({ role := "Expert Keyword Research Specialist"
     goal := "Analyze topics and identify the most effective search terms and phrases"
     backstory := "Expert keyword research specialist with deep understanding of search behavior \n                        and semantic analysis. Skilled at breaking down topics into relevant search terms."
     tools := ["SerperDevTool"]
     llm := llm
     verbose := true },
   { role := "Search Results Analyst"
     goal := "Evaluate and refine search queries based on initial results"
     backstory := "Analytical expert specializing in evaluating search results and identifying \n                        patterns in successful queries."
     tools := ["SerperDevTool"]
     llm := llm
     verbose := true },
   { role := "Research Insights Compiler"
     goal := "Synthesize findings and create structured recommendations"
     backstory := "Research synthesis specialist who excels at organizing insights into clear, \n                        actionable recommendations."
     tools := ["SerperDevTool"]
     llm := llm
     verbose := true })

/-- A crew task as constructed in `create_tasks`: description, assigned
agent, upstream context tasks and output artifact path. -/
inductive Task where
  | mk (description : String) (agent : AgentDef) (context : List Task) (output_file : String)

/-- The description text of a task. -/
def Task.description : Task → String
  | .mk d _ _ _ => d

/-- The agent a task is assigned to. -/
def Task.agent : Task → AgentDef
  | .mk _ a _ _ => a

/-- The upstream context tasks of a task. -/
def Task.context : Task → List Task
  | .mk _ _ c _ => c

/-- The output artifact path of a task. -/
def Task.output_file : Task → String
  | .mk _ _ _ o => o

/-- A wall-clock instant as returned by `datetime.datetime.now()`,
reduced to the fields the format string `"%Y%m%d_%H%M%S"` reads. -/
structure DateTime where
  year : Nat
  month : Nat
  day : Nat
  hour : Nat
  minute : Nat
  second : Nat

/-- Two-digit zero-padded decimal field of `strftime` (`%m`, `%d`,
`%H`, `%M`, `%S`; each is below 100 on every representable datetime). -/
def pad2 (n : Nat) : String :=
  ⟨[Nat.digitChar (n / 10 % 10), Nat.digitChar (n % 10)]⟩

/-- Four-digit zero-padded decimal field of `strftime` (`%Y`; datetime
years are between 1 and 9999). -/
def pad4 (n : Nat) : String :=
  ⟨[Nat.digitChar (n / 1000 % 10), Nat.digitChar (n / 100 % 10),
    Nat.digitChar (n / 10 % 10), Nat.digitChar (n % 10)]⟩

/-- `datetime.now().strftime("%Y%m%d_%H%M%S")` on the given instant. -/
def strftime_YmdHMS (t : DateTime) : String :=
  (pad4 t.year ++ (pad2 t.month ++ pad2 t.day)) ++
    ("_" ++ (pad2 t.hour ++ (pad2 t.minute ++ pad2 t.second)))

/-- Python string interpolation of an `Optional[str]` value inside an
f-string: a missing value renders as the literal text `None`. -/
def pyStr : Option String → String
  | some s => s
  | Option.none => "None"

/-- The f-string description of task 1, interpolating `topic`,
`research_objective` and `specific_focus` of the research topic. -/
def task1Description (rt : ResearchTopic) : String :=
  "\n                Analyze the following topic and identify potential keywords and search phrases:\n                TOPIC: \"" ++
  (rt.topic ++
  ("\"\n                RESEARCH OBJECTIVE: \"" ++
  (pyStr rt.research_objective ++
  ("\"\n                SPECIFIC FOCUS: \"" ++
  (pyStr rt.specific_focus ++
  "\"\n                \n                1. Break down the topic into main concepts\n                2. Generate primary keywords for each concept\n                3. Identify related terms and synonyms\n                4. Consider different search intents\n                5. List at least 5 potential search phrases\n            ")))))

/-- The fixed description of task 2. -/
def task2Description : String :=
  "\n                Evaluate the effectiveness of the proposed keywords by analyzing search results:\n                1. Test each main keyword/phrase identified\n                2. Analyze the relevance of returned results\n                3. Identify gaps or irrelevant results\n                4. Suggest modifications to improve search accuracy\n            "

/-- The fixed description of task 3. -/
def task3Description : String :=
  "\n                Compile final keyword recommendations and search strategy:\n                1. Synthesize findings from keyword research and search analysis\n                2. Create a prioritized list of recommended search terms\n                3. Group related terms and phrases\n                4. Provide specific recommendations for different search objectives\n            "

/-- `create_tasks`: computes the timestamp once, then builds the three
tasks — task 1 on the keyword researcher with no context, task 2 on the
search analyst with context `[task_1]`, task 3 on the insights compiler
with context `[task_2]` — each writing to
`output-files/<stage>_<timestamp>.md`. -/
def create_tasks (agents : AgentDef × AgentDef × AgentDef) (research_topic : ResearchTopic)
    (now : DateTime) : List Task :=
  let timestamp := strftime_YmdHMS now
  let task_1 := Task.mk (task1Description research_topic) agents.1 []
    ("output-files/keyword_analysis_" ++ (timestamp ++ ".md"))
  let task_2 := Task.mk task2Description agents.2.1 [task_1]
    ("output-files/search_analysis_" ++ (timestamp ++ ".md"))
  let task_3 := Task.mk task3Description agents.2.2 [task_2]
    ("output-files/final_recommendations_" ++ (timestamp ++ ".md"))
  [task_1, task_2, task_3]

/-- The result-shaping step at the end of `ResearcherAgent.research`:
a single `try` block builds all three fields with
`result.get("task_i", {})`; if any of those calls raises (which happens
exactly when `result` is not a dictionary), the `except` block replaces
the whole result with three empty mappings. -/
def shapeResearchResults (result : PyVal) : List (String × PyVal) :=
  match Except.bind (pyGet result "task_1" emptyDict) (fun ka =>
        Except.bind (pyGet result "task_2" emptyDict) (fun sa =>
        Except.bind (pyGet result "task_3" emptyDict) (fun fr =>
        Except.ok [("keyword_analysis", ka), ("search_analysis", sa),
                   ("final_recommendations", fr)]))) with
  | Except.ok r => r
  | Except.error _ =>
      [("keyword_analysis", emptyDict), ("search_analysis", emptyDict),
       ("final_recommendations", emptyDict)]

/-- The all-empty result produced by the recovery path. -/
def emptyResults : List (String × PyVal) :=
  [("keyword_analysis", emptyDict), ("search_analysis", emptyDict),
   ("final_recommendations", emptyDict)]

/-- Observable side effects of a run, in order of occurrence: tool
client construction, agent construction, schema validation, and the
execution of a stage (identified by its artifact path). -/
inductive Event where
  | toolsSetup
  | agentsSetup
  | validationRun
  | stageExecuted (output_file : String)

/-- The `inputs` field of an `AgentRunInput`: either a plain Python
value (a dictionary or anything else) or an already-built `InputSchema`
object. -/
inductive PyObj where
  | val (v : PyVal)
  | schemaObj (s : InputSchema)

/-- `true` exactly when `isinstance(inputs, dict)` holds. -/
def isDictObj : PyObj → Bool
  | .val (.pyDict _) => true
  | _ => false

/-- `AgentRunInput`: the request payload plus the deployment
descriptor. -/
structure AgentRunInput where
  inputs : PyObj
  agent_deployment : AgentDeployment

/-- Errors a run can surface: a pydantic `ValidationError` or a Python
`AttributeError` (from attribute access on an unsuitable object). -/
inductive RunError where
  | validationError (msg : String)
  | attributeError (msg : String)

/-- `ResearcherAgent.research`: builds the tasks, runs the crew (the
external executor; its result is the parameter `kickoffResult`), then
applies the result-shaping step.  Returns the stage-execution events and
the shaped result. -/
def research (agents : AgentDef × AgentDef × AgentDef) (rt : ResearchTopic) (now : DateTime)
    (kickoffResult : PyVal) : List Event × List (String × PyVal) :=
  let tasks := create_tasks agents rt now
  (tasks.map (fun t => Event.stageExecuted (Task.output_file t)),
   shapeResearchResults kickoffResult)

/-- The entry point `run(module_run)`.  It first constructs the
`ResearcherAgent` (tool clients, then agents), then checks
`isinstance(module_run.inputs, dict)`: a dictionary is validated through
`InputSchema`, anything else is used as given.  The research pipeline
then runs on `input_params.research_topic`; on a plain non-dictionary
value that attribute access raises `AttributeError`.  The external clock
and executor result are the parameters `now` and `kickoffResult`. -/
def run (module_run : AgentRunInput) (now : DateTime) (kickoffResult : PyVal) :
    List Event × Except RunError (List (String × PyVal)) :=
  let agents := setup_agents module_run.agent_deployment.agent_config.llm_config
  match module_run.inputs with
  | .val (.pyDict d) =>
      match validateInputSchema d with
      | .error msg =>
          ([Event.toolsSetup, Event.agentsSetup, Event.validationRun],
           Except.error (RunError.validationError msg))
      | .ok input_params =>
          let p := research agents input_params.research_topic now kickoffResult
          (Event.toolsSetup :: Event.agentsSetup :: Event.validationRun :: p.1,
           Except.ok p.2)
  | .schemaObj s =>
      let p := research agents s.research_topic now kickoffResult
      (Event.toolsSetup :: Event.agentsSetup :: p.1, Except.ok p.2)
  | .val _ =>
      ([Event.toolsSetup, Event.agentsSetup],
       Except.error (RunError.attributeError "research_topic"))

/-- `true` exactly on the validation event. -/
def isValidationEvent : Event → Bool
  | .validationRun => true
  | _ => false

/-- Whether a trace contains a validation event. -/
def hasValidationEvent (es : List Event) : Bool := es.any isValidationEvent

/-- `true` exactly when a run outcome is a `ValidationError`. -/
def isValidationFailure : Except RunError (List (String × PyVal)) → Bool
  | .error (.validationError _) => true
  | _ => false

/-! ### Helper lemmas -/

/-- Character-list test that `p` starts `l`. -/
def startsWithChars : List Char → List Char → Bool
  | [], _ => true
  | _ :: _, [] => false
  | a :: as, b :: bs => a == b && startsWithChars as bs

/-- Character-list substring test: some tail of `l` starts with `pat`. -/
def hasInfixChars (pat l : List Char) : Bool :=
  l.tails.any (startsWithChars pat)

/-- Substring test on strings, via their character lists. -/
def containsStr (s pat : String) : Bool :=
  hasInfixChars pat.data s.data

theorem data_append (a b : String) : (a ++ b).data = a.data ++ b.data := by
  cases a; cases b; rfl

theorem length_append (a b : String) : (a ++ b).length = a.length + b.length := by
  cases a; cases b; simp [String.length, String.append]

theorem startsWithChars_self_append (p rest : List Char) :
    startsWithChars p (p ++ rest) = true := by
  induction p with
  | nil => rfl
  | cons a as ih => simp [startsWithChars, ih]

theorem hasInfixChars_self (t b : List Char) : hasInfixChars t (t ++ b) = true := by
  rw [hasInfixChars, List.any_eq_true]
  exact ⟨t ++ b, (List.mem_tails _ _).mpr (List.suffix_refl _), startsWithChars_self_append t b⟩

theorem hasInfixChars_append_left (a : List Char) {t l : List Char}
    (h : hasInfixChars t l = true) : hasInfixChars t (a ++ l) = true := by
  rw [hasInfixChars, List.any_eq_true] at h ⊢
  obtain ⟨s, hs, hp⟩ := h
  exact ⟨s, (List.mem_tails _ _).mpr (((List.mem_tails _ _).mp hs).trans (List.suffix_append a l)), hp⟩

theorem shape_dict (d : List (String × PyVal)) :
    shapeResearchResults (.pyDict d) =
      [("keyword_analysis", getD d "task_1"), ("search_analysis", getD d "task_2"),
       ("final_recommendations", getD d "task_3")] := rfl

theorem shape_nondict {v : PyVal} (h : isDictVal v = false) :
    shapeResearchResults v = emptyResults := by
  cases v with
  | pyDict d => simp [isDictVal] at h
  | pyNone => rfl
  | pyBool b => rfl
  | pyInt n => rfl
  | pyStr s => rfl

theorem getD_isDict {d : List (String × PyVal)} (h : ∀ p ∈ d, isDictVal p.2 = true)
    (k : String) : isDictVal (getD d k) = true := by
  rw [getD, lookup]
  cases hf : d.find? (fun p => p.1 == k) with
  | none => rfl
  | some p => simpa using h p (List.mem_of_find?_eq_some hf)

theorem run_ok {mr : AgentRunInput} {now : DateTime} {kv : PyVal}
    {res : List (String × PyVal)} (h : (run mr now kv).2 = Except.ok res) :
    res = shapeResearchResults kv := by
  obtain ⟨inputs, dep⟩ := mr
  cases inputs with
  | schemaObj s =>
      simp [run, research] at h
      exact h.symm
  | val v =>
      cases v with
      | pyDict d =>
          cases hv : validateInputSchema d with
          | error e => simp [run, hv] at h
          | ok ip =>
              simp [run, hv, research] at h
              exact h.symm
      | pyNone => simp [run] at h
      | pyBool b => simp [run] at h
      | pyInt n => simp [run] at h
      | pyStr s => simp [run] at h

/-- All characters of a string are decimal digits. -/
def allDigits (s : String) : Bool := s.data.all Char.isDigit

theorem digitChar_mod_isDigit (n : Nat) : (Nat.digitChar (n % 10)).isDigit = true :=
  (by decide : ∀ k, k < 10 → (Nat.digitChar k).isDigit = true) _ (Nat.mod_lt n (by decide))

/-! ### Claims -/

/-- C5: every run's pipeline is exactly 3 stages in the fixed order
keyword_analysis, search_analysis, final_recommendations; stage 1 has no
upstream context, stage 2's context is exactly stage 1, stage 3's
context is exactly stage 2 — and stage 1 is not in stage 3's context. -/
theorem pipeline_three_stages_chain (ag : AgentDef × AgentDef × AgentDef)
    (rt : ResearchTopic) (now : DateTime) :
    ∃ t1 t2 t3, create_tasks ag rt now = [t1, t2, t3] ∧
      Task.context t1 = [] ∧ Task.context t2 = [t1] ∧ Task.context t3 = [t2] ∧
      t1 ∉ Task.context t3 ∧
      Task.output_file t1 = "output-files/keyword_analysis_" ++ (strftime_YmdHMS now ++ ".md") ∧
      Task.output_file t2 = "output-files/search_analysis_" ++ (strftime_YmdHMS now ++ ".md") ∧
      Task.output_file t3 =
        "output-files/final_recommendations_" ++ (strftime_YmdHMS now ++ ".md") := by
  refine ⟨_, _, _, rfl, rfl, rfl, rfl, ?_, rfl, rfl, rfl⟩
  intro hmem
  simp only [Task.context, List.mem_singleton, Task.mk.injEq] at hmem
  obtain ⟨-, -, -, hof⟩ := hmem
  have hlen := congrArg String.length hof
  simp only [length_append] at hlen
  have h1 : ("output-files/keyword_analysis_" : String).length = 30 := rfl
  have h2 : ("output-files/search_analysis_" : String).length = 29 := rfl
  rw [h1, h2] at hlen
  omega

/-- C6: the three artifact paths have the form
`output-files/<stage>_<timestamp>.md`, the timestamp is computed once
per run and shared by all three paths, and it consists of 8 digits, an
underscore, and 6 digits (`YYYYMMDD_HHMMSS`). -/
theorem artifact_paths_shared_timestamp (ag : AgentDef × AgentDef × AgentDef)
    (rt : ResearchTopic) (now : DateTime) :
    ∃ ts : String, ts = strftime_YmdHMS now ∧
      (create_tasks ag rt now).map Task.output_file =
        ["output-files/keyword_analysis_" ++ (ts ++ ".md"),
         "output-files/search_analysis_" ++ (ts ++ ".md"),
         "output-files/final_recommendations_" ++ (ts ++ ".md")] ∧
      ∃ dpart tpart : String,
        ts = dpart ++ ("_" ++ tpart) ∧ dpart.length = 8 ∧ tpart.length = 6 ∧
        allDigits dpart = true ∧ allDigits tpart = true := by
  refine ⟨strftime_YmdHMS now, rfl, rfl,
    pad4 now.year ++ (pad2 now.month ++ pad2 now.day),
    pad2 now.hour ++ (pad2 now.minute ++ pad2 now.second), rfl, rfl, rfl, ?_, ?_⟩ <;>
    simp [allDigits, pad4, pad2, data_append, digitChar_mod_isDigit]

set_option maxRecDepth 4000 in
/-- C4 (corrected): when `research_objective` and `specific_focus` are
both absent, the stage-1 description still contains the literal topic
text, but — contrary to the claim — the literal substring `None` does
appear in the description (Python interpolates `None` for the absent
fields). -/
theorem task1_description_amended (topic : String) (ctx depth : Option String) :
    containsStr (task1Description ⟨topic, ctx, depth, Option.none, Option.none⟩) topic = true ∧
    containsStr (task1Description ⟨topic, ctx, depth, Option.none, Option.none⟩) "None" = true := by
  constructor
  · simp only [containsStr, task1Description, pyStr, data_append]
    exact hasInfixChars_append_left _ (hasInfixChars_self _ _)
  · simp only [containsStr, task1Description, pyStr, data_append]
    exact hasInfixChars_append_left _ (hasInfixChars_append_left _
      (hasInfixChars_append_left _ (hasInfixChars_self _ _)))

set_option maxRecDepth 4000 in
/-- C4 counterexample: for a concrete topic with absent
`research_objective` and `specific_focus`, the stage-1 description
contains the literal substring `None`, contradicting the claim that no
such placeholder artifact appears. -/
theorem task1_description_none_cex :
    containsStr
      (task1Description ⟨"AI agents", Option.none, some "comprehensive",
        Option.none, Option.none⟩) "None" = true := by
  simp only [containsStr, task1Description, pyStr, data_append]
  exact hasInfixChars_append_left _ (hasInfixChars_append_left _
    (hasInfixChars_append_left _ (hasInfixChars_self _ _)))

/-- C7 (corrected): `max_sources` carries no positivity constraint —
any integer (zero and negative included) is accepted; an absent field
defaults to 5; a present non-integer (e.g. a boolean) is rejected. -/
theorem max_sources_amended :
    validateMaxSources Option.none = Except.ok (some 5) ∧
    (∀ n : Int, validateMaxSources (some (PyVal.pyInt n)) = Except.ok (some n)) ∧
    (∀ b : Bool, validateMaxSources (some (PyVal.pyBool b)) =
      Except.error "max_sources: int type expected") :=
  ⟨rfl, fun _ => rfl, fun _ => rfl⟩

/-- C7 counterexample: a request with `max_sources = 0` — not a
positive integer — validates successfully instead of failing with a
`ValidationError`. -/
theorem max_sources_zero_accepted_cex :
    validateInputSchema
      [("research_topic", PyVal.pyDict [("topic", PyVal.pyStr "t")]),
       ("max_sources", PyVal.pyInt 0)] =
      Except.ok ⟨⟨"t", Option.none, some "comprehensive", Option.none, Option.none⟩,
        some 0, some true⟩ := rfl

/-- C8 (corrected): all three agents share one language-model
configuration by reference, but it is the hardcoded
`ChatOpenAI(model_name="gpt-4o", temperature=0.7)`, not the deployment
descriptor's configuration — the construction ignores the descriptor
entirely. -/
theorem llm_shared_hardcoded (cfg cfg2 : LLMConfig) :
    (setup_agents cfg).1.llm = (setup_agents cfg).2.1.llm ∧
    (setup_agents cfg).2.1.llm = (setup_agents cfg).2.2.llm ∧
    (setup_agents cfg).1.llm = ⟨"gpt-4o", 7/10⟩ ∧
    setup_agents cfg = setup_agents cfg2 :=
  ⟨rfl, rfl, rfl, rfl⟩

/-- C8 counterexample: with a deployment descriptor configuring a
different model, the agents' language-model client is still `gpt-4o`,
so the configuration used is not the one the descriptor supplied. -/
theorem llm_config_hardcoded_cex :
    (setup_agents ⟨"gpt-3.5-turbo", 0⟩).1.llm.model_name = "gpt-4o" ∧
    ("gpt-4o" : String) ≠ "gpt-3.5-turbo" :=
  ⟨rfl, by decide⟩

/-- C1 (corrected): every successful run returns exactly the three
fields keyword_analysis, search_analysis, final_recommendations in that
order; when the executor output is not a dictionary all three are empty
mappings; and each field is a mapping whenever every stage value in the
executor output is a mapping — but a stage value that is null or not a
mapping is passed through unchanged, so the fields are not in general
mappings. -/
theorem run_result_fields_amended (mr : AgentRunInput) (now : DateTime) (kv : PyVal)
    (res : List (String × PyVal)) (h : (run mr now kv).2 = Except.ok res) :
    res.map Prod.fst = ["keyword_analysis", "search_analysis", "final_recommendations"] ∧
    (isDictVal kv = false → res = emptyResults) ∧
    (∀ d, kv = PyVal.pyDict d → (∀ p ∈ d, isDictVal p.2 = true) →
      ∀ p ∈ res, isDictVal p.2 = true) := by
  have hres := run_ok h
  subst hres
  refine ⟨?_, fun hnd => shape_nondict hnd, ?_⟩
  · cases kv with
    | pyDict d => rw [shape_dict]; rfl
    | pyNone => rfl
    | pyBool b => rfl
    | pyInt n => rfl
    | pyStr s => rfl
  · rintro d rfl hall p hp
    rw [shape_dict] at hp
    simp only [List.mem_cons, List.not_mem_nil, or_false] at hp
    rcases hp with rfl | rfl | rfl
    · exact getD_isDict hall _
    · exact getD_isDict hall _
    · exact getD_isDict hall _

/-- C1 witness: on a concrete non-dictionary executor result the run
succeeds and the result carries exactly the three field names. -/
theorem run_result_fields_witness :
    ([("keyword_analysis", emptyDict), ("search_analysis", emptyDict),
      ("final_recommendations", emptyDict)].map Prod.fst) =
      ["keyword_analysis", "search_analysis", "final_recommendations"] :=
  (run_result_fields_amended
    ⟨PyObj.schemaObj ⟨⟨"t", Option.none, some "comprehensive", Option.none, Option.none⟩,
        some 5, some true⟩, ⟨⟨⟨"gpt-4o-mini", 0⟩⟩⟩⟩
    ⟨2024, 5, 6, 7, 8, 9⟩ (PyVal.pyStr "done") _ rfl).1

/-- C1 counterexample: an executor output binding `task_1` to `None`
makes the run complete successfully with `keyword_analysis` bound to
null — the claim that the fields are never null fails. -/
theorem run_result_null_field_cex :
    (run ⟨PyObj.schemaObj ⟨⟨"t", Option.none, some "comprehensive", Option.none, Option.none⟩,
        some 5, some true⟩, ⟨⟨⟨"gpt-4o-mini", 0⟩⟩⟩⟩ ⟨2024, 5, 6, 7, 8, 9⟩
      (PyVal.pyDict [("task_1", PyVal.pyNone)])).2 =
      Except.ok [("keyword_analysis", PyVal.pyNone), ("search_analysis", emptyDict),
                 ("final_recommendations", emptyDict)] := rfl

/-- C2 (corrected): when the executor output is a dictionary there is
no per-field recovery at all — every stage value, malformed or not, is
passed through verbatim (with `{}` only for absent keys).  The recovery
path triggers only when the whole output has no `get` attribute, and
then it discards all three fields at once. -/
theorem result_shaping_passthrough (mr : AgentRunInput) (now : DateTime)
    (d : List (String × PyVal)) (res : List (String × PyVal))
    (h : (run mr now (PyVal.pyDict d)).2 = Except.ok res) :
    res = [("keyword_analysis", getD d "task_1"), ("search_analysis", getD d "task_2"),
           ("final_recommendations", getD d "task_3")] := by
  rw [run_ok h, shape_dict]

/-- C2 witness: with a concrete executor dictionary whose only key is a
malformed `task_2`, the run's result is exactly the verbatim
pass-through of that dictionary. -/
theorem result_shaping_passthrough_witness :
    ([("keyword_analysis", emptyDict), ("search_analysis", PyVal.pyStr "malformed"),
      ("final_recommendations", emptyDict)] : List (String × PyVal)) =
      [("keyword_analysis", getD [("task_2", PyVal.pyStr "malformed")] "task_1"),
       ("search_analysis", getD [("task_2", PyVal.pyStr "malformed")] "task_2"),
       ("final_recommendations", getD [("task_2", PyVal.pyStr "malformed")] "task_3")] :=
  result_shaping_passthrough
    ⟨PyObj.schemaObj ⟨⟨"t2", Option.none, some "comprehensive", Option.none, Option.none⟩,
        some 5, some true⟩, ⟨⟨⟨"m", 0⟩⟩⟩⟩
    ⟨2024, 5, 6, 7, 8, 9⟩ [("task_2", PyVal.pyStr "malformed")] _ rfl

/-- C2 counterexample: with well-formed `task_1`/`task_3` outputs and a
malformed `task_2` output, the run returns `search_analysis` bound to
the malformed value itself, not to the empty mapping the claim
requires. -/
theorem search_analysis_passthrough_cex :
    (run ⟨PyObj.schemaObj ⟨⟨"t3", Option.none, some "comprehensive", Option.none, Option.none⟩,
        some 5, some true⟩, ⟨⟨⟨"m", 0⟩⟩⟩⟩ ⟨2024, 5, 6, 7, 8, 9⟩
      (PyVal.pyDict [("task_1", PyVal.pyDict [("a", PyVal.pyStr "1")]),
                     ("task_2", PyVal.pyStr "malformed"),
                     ("task_3", PyVal.pyDict [("b", PyVal.pyStr "2")])])).2 =
      Except.ok [("keyword_analysis", PyVal.pyDict [("a", PyVal.pyStr "1")]),
                 ("search_analysis", PyVal.pyStr "malformed"),
                 ("final_recommendations", PyVal.pyDict [("b", PyVal.pyStr "2")])] ∧
    PyVal.pyStr "malformed" ≠ emptyDict :=
  ⟨rfl, fun h => PyVal.noConfusion h⟩

/-- C3 (corrected): when the request's `topic` field is missing, the
run fails with a `ValidationError` and no stage executes (the trace
carries no stage event) — but, contrary to the claim, an empty-string
topic is accepted (see the counterexample). -/
theorem missing_topic_validation (d rd : List (String × PyVal)) (dep : AgentDeployment)
    (now : DateTime) (kv : PyVal)
    (h2 : lookup d "research_topic" = some (PyVal.pyDict rd))
    (h3 : lookup rd "topic" = Option.none) :
    run ⟨PyObj.val (PyVal.pyDict d), dep⟩ now kv =
      ([Event.toolsSetup, Event.agentsSetup, Event.validationRun],
       Except.error (RunError.validationError "topic: field required")) := by
  have hv : validateInputSchema d = Except.error "topic: field required" := by
    simp [validateInputSchema, h2, vResearchTopicField, validateResearchTopic, h3, vTopic,
      Except.bind]
  simp [run, hv]

/-- C3 witness: a concrete request whose `research_topic` record lacks
`topic` fails validation after agent construction, with no stage
event. -/
theorem missing_topic_validation_witness :
    run ⟨PyObj.val (PyVal.pyDict [("research_topic", PyVal.pyDict [])]), ⟨⟨⟨"m", 0⟩⟩⟩⟩
        ⟨2024, 5, 6, 7, 8, 9⟩ (PyVal.pyStr "done") =
      ([Event.toolsSetup, Event.agentsSetup, Event.validationRun],
       Except.error (RunError.validationError "topic: field required")) :=
  missing_topic_validation [("research_topic", PyVal.pyDict [])] [] ⟨⟨⟨"m", 0⟩⟩⟩
    ⟨2024, 5, 6, 7, 8, 9⟩ (PyVal.pyStr "done") rfl rfl

/-- C3 counterexample: a request whose `topic` is the empty string
passes validation and runs all three stages, instead of failing with a
`ValidationError` as the claim requires. -/
theorem empty_topic_accepted_cex :
    run ⟨PyObj.val (PyVal.pyDict
          [("research_topic", PyVal.pyDict [("topic", PyVal.pyStr "")])]),
        ⟨⟨⟨"m", 0⟩⟩⟩⟩ ⟨2024, 5, 6, 7, 8, 9⟩ (PyVal.pyStr "done") =
      ([Event.toolsSetup, Event.agentsSetup, Event.validationRun,
        Event.stageExecuted "output-files/keyword_analysis_20240506_070809.md",
        Event.stageExecuted "output-files/search_analysis_20240506_070809.md",
        Event.stageExecuted "output-files/final_recommendations_20240506_070809.md"],
       Except.ok [("keyword_analysis", emptyDict), ("search_analysis", emptyDict),
                  ("final_recommendations", emptyDict)]) := rfl

/-- C9 (corrected): tool clients and agents are constructed first, in
every invocation — validation, when it happens at all, comes only
afterwards.  A request that fails validation therefore still causes
tool clients and agents to be constructed. -/
theorem init_precedes_validation (mr : AgentRunInput) (now : DateTime) (kv : PyVal) :
    ∃ rest, (run mr now kv).1 = Event.toolsSetup :: Event.agentsSetup :: rest := by
  obtain ⟨inputs, dep⟩ := mr
  cases inputs with
  | schemaObj s => exact ⟨_, rfl⟩
  | val v =>
      cases v with
      | pyDict d =>
          cases hv : validateInputSchema d with
          | error e => exact ⟨[Event.validationRun], by simp [run, hv]⟩
          | ok ip =>
              exact ⟨Event.validationRun ::
                (research (setup_agents dep.agent_config.llm_config) ip.research_topic now
                  kv).1, by simp [run, hv]⟩
      | pyNone => exact ⟨_, rfl⟩
      | pyBool b => exact ⟨_, rfl⟩
      | pyInt n => exact ⟨_, rfl⟩
      | pyStr s => exact ⟨_, rfl⟩

/-- C9 counterexample: on a concrete invalid request the trace shows
tool construction and agent construction happening before the failing
validation — so validation does not precede initialization. -/
theorem init_before_validation_cex :
    run ⟨PyObj.val (PyVal.pyDict []), ⟨⟨⟨"m", 0⟩⟩⟩⟩ ⟨2024, 5, 6, 7, 8, 9⟩
        (PyVal.pyStr "done") =
      ([Event.toolsSetup, Event.agentsSetup, Event.validationRun],
       Except.error (RunError.validationError "research_topic: field required")) := rfl

/-- C10: when the run input's `inputs` field is not a dictionary, no
validation happens (the trace carries no validation event), the outcome
is never a `ValidationError`, and an already-built schema object is
used as given. -/
theorem non_dict_inputs_skip_validation (mr : AgentRunInput) (now : DateTime) (kv : PyVal)
    (h : isDictObj mr.inputs = false) :
    hasValidationEvent (run mr now kv).1 = false ∧
    isValidationFailure (run mr now kv).2 = false ∧
    (∀ s2, mr.inputs = PyObj.schemaObj s2 →
      (run mr now kv).2 = Except.ok (shapeResearchResults kv)) := by
  obtain ⟨inputs, dep⟩ := mr
  cases inputs with
  | schemaObj s => exact ⟨rfl, rfl, fun s2 hs => by injection hs with h2; subst h2; rfl⟩
  | val v =>
      cases v with
      | pyDict d => simp [isDictObj] at h
      | pyNone => exact ⟨rfl, rfl, fun s2 hs => nomatch hs⟩
      | pyBool b => exact ⟨rfl, rfl, fun s2 hs => nomatch hs⟩
      | pyInt n => exact ⟨rfl, rfl, fun s2 hs => nomatch hs⟩
      | pyStr s => exact ⟨rfl, rfl, fun s2 hs => nomatch hs⟩

/-- C10 witness: a concrete run input carrying an already-built schema
object skips validation, does not produce a `ValidationError`, and
returns the shaped executor result. -/
theorem non_dict_inputs_skip_validation_witness :
    hasValidationEvent
      (run ⟨PyObj.schemaObj ⟨⟨"t4", Option.none, some "comprehensive", Option.none,
          Option.none⟩, some 5, some true⟩, ⟨⟨⟨"m", 0⟩⟩⟩⟩ ⟨2024, 5, 6, 7, 8, 9⟩
        (PyVal.pyStr "done")).1 = false ∧
    isValidationFailure
      (run ⟨PyObj.schemaObj ⟨⟨"t4", Option.none, some "comprehensive", Option.none,
          Option.none⟩, some 5, some true⟩, ⟨⟨⟨"m", 0⟩⟩⟩⟩ ⟨2024, 5, 6, 7, 8, 9⟩
        (PyVal.pyStr "done")).2 = false ∧
    (run ⟨PyObj.schemaObj ⟨⟨"t4", Option.none, some "comprehensive", Option.none,
          Option.none⟩, some 5, some true⟩, ⟨⟨⟨"m", 0⟩⟩⟩⟩ ⟨2024, 5, 6, 7, 8, 9⟩
        (PyVal.pyStr "done")).2 =
      Except.ok (shapeResearchResults (PyVal.pyStr "done")) := by
  have h := non_dict_inputs_skip_validation
    ⟨PyObj.schemaObj ⟨⟨"t4", Option.none, some "comprehensive", Option.none, Option.none⟩,
        some 5, some true⟩, ⟨⟨⟨"m", 0⟩⟩⟩⟩ ⟨2024, 5, 6, 7, 8, 9⟩ (PyVal.pyStr "done") rfl
  exact ⟨h.1, h.2.1, h.2.2 _ rfl⟩

end AIResearcher



